import Mathlib

/-!
Verification of the batch cube-conversion driver of the seismiqb
repository (`datasets/01_Convert_cubes.ipynb`).

The notebook discovers SEG-Y cube paths with a sorted glob, and for each
cube applies a policy gate (missing-source check, recreate check,
dry-run check) before delegating geometry construction and format
conversion to the external `SeismicGeometry` library.

The embedding below models the driver's control flow as a pure function
producing a trace of observable events.  Filesystem existence, glob
matching, and the success or failure of the external construction and
conversion calls are parameters (oracles), since they are owned by the
environment and the external library.
-/

namespace Seismiqb

/-! ### `os.path.splitext`, POSIX flavour

Faithful model of CPython `genericpath._splitext(p, sep='/', altsep=None,
extsep='.')`: find the last separator and the last dot; if the last dot
lies after the last separator and the filename part is not made of dots
only up to that dot, split there; otherwise the extension is empty. -/

/-- `str.rfind(c)` on a list of characters: the highest index holding `c`,
or `-1` when absent, starting the count at `i`. -/
def rfindFrom (c : Char) : List Char → Int → Int
  | [], _ => -1
  | x :: xs, i =>
    let r := rfindFrom c xs (i + 1)
    if r ≥ 0 then r else if x = c then i else -1

/-- `str.rfind(c)`: highest index of `c`, or `-1` when `c` does not occur. -/
def rfind (l : List Char) (c : Char) : Int := rfindFrom c l 0

/-- `os.path.splitext` on the character list of a POSIX path. -/
def splitextChars (p : List Char) : List Char × List Char :=
  let sepIndex := rfind p '/'
  let dotIndex := rfind p '.'
  if dotIndex > sepIndex then
    let fi := (sepIndex + 1).toNat
    let di := dotIndex.toNat
    if ((p.drop fi).take (di - fi)).all (fun c => c = '.') then (p, [])
    else (p.take di, p.drop di)
  else (p, [])

/-- `os.path.splitext` on strings: root and extension. -/
def splitext (p : String) : String × String :=
  let r := splitextChars p.data
  (String.mk r.1, String.mk r.2)

/-- The converted path of the notebook:
`'.'.join((os.path.splitext(path_cube)[0], ('q' if QUANTIZE else '') + FORMAT))`. -/
def path_converted (path_cube : String) (QUANTIZE : Bool) (FORMAT : String) : String :=
  String.intercalate "." [(splitext path_cube).1, (if QUANTIZE then "q" else "") ++ FORMAT]

/-! ### The run configuration and the event trace -/

/-- The run configuration constants set in the notebook's second cell. -/
structure Config where
  RECREATE : Bool
  FORMAT : String
  QUANTIZE : Bool
  SHOW : Bool
  DRY_RUN : Bool
  deriving DecidableEq, Repr

/-- Observable events of one run of the driver loop, in program order.
Console output is `printed`; every external call to the geometry library
is its own constructor. -/
inductive Event where
  /-- a `print(...)` call with the given text -/
  | printed (msg : String)
  /-- the `SeismicGeometry(path_cube, ...)` construction call -/
  | constructed (path : String)
  /-- the access `geometry.quality_map` -/
  | quality_map (path : String)
  /-- `geometry.print()` -/
  | printGeometry (path : String)
  /-- `geometry.print_textual()` -/
  | printTextual (path : String)
  /-- `geometry.show()` -/
  | showGeometry (path : String)
  /-- `geometry.show_quality_map()` -/
  | showQualityMap (path : String)
  /-- `plt.show()` -/
  | pltShow
  /-- `geometry.convert(format=FORMAT, quantize=QUANTIZE)`, writing `dst` -/
  | converted (src dst format : String) (quantize : Bool)
  /-- `geometry_converted.print()` -/
  | printConverted (path : String)
  deriving DecidableEq, Repr

/-- The banner line `'▆'*60` printed when `SHOW` is enabled. -/
def barLine : String := String.mk (List.replicate 60 '▆')

/-- The skip notice `f'{path_converted} already exists, skipping'`. -/
def skipMsg (pc : String) : String := pc ++ " already exists, skipping"

/-- The dry-run report
`f'Will convert ::: {path_cube}\nto           ::: {path_converted}\n'`. -/
def dryRunMsg (path_cube pc : String) : String :=
  "Will convert ::: " ++ path_cube ++ "\nto           ::: " ++ pc ++ "\n"

/-- One iteration of the notebook's loop body for `path_cube`.

`fs` is `os.path.exists`; `constructOk path` (resp. `convertOk path`) is
`false` exactly when the external construction (resp. conversion) call
raises for that cube.  The result is `.ok trace` for a normal iteration
and `.error trace` when an external call raises, carrying the events that
happened before the exception escaped. -/
def processCube (cfg : Config) (fs : String → Bool)
    (constructOk convertOk : String → Bool) (path_cube : String) :
    Except (List Event) (List Event) :=
  if fs path_cube = false then
    .ok []
  else
    let pc := path_converted path_cube cfg.QUANTIZE cfg.FORMAT
    if fs pc && !cfg.RECREATE then
      .ok [.printed (skipMsg pc)]
    else if cfg.DRY_RUN then
      .ok [.printed (dryRunMsg path_cube pc)]
    else
      let pre : List Event :=
        if cfg.SHOW then
          [.printed barLine, .printed barLine, .printed ("Working with " ++ path_cube)]
        else []
      if constructOk path_cube = false then
        .error pre
      else
        let mid := pre ++ [.constructed path_cube, .quality_map path_cube] ++
          (if cfg.SHOW then
            [.printGeometry path_cube, .printTextual path_cube,
             .showGeometry path_cube, .showQualityMap path_cube, .pltShow]
          else [])
        if convertOk path_cube = false then
          .error mid
        else
          .ok (mid ++ [.converted path_cube pc cfg.FORMAT cfg.QUANTIZE] ++
            (if cfg.SHOW then [.printConverted pc, .printed ("\n" ++ "\n" ++ "\n")] else []))

/-- The driver loop `for path_cube in paths: ...`.  Returns the
concatenated trace and a flag telling whether an exception escaped; an
uncaught exception aborts the remaining cubes and appends nothing. -/
def runDriver (cfg : Config) (fs : String → Bool)
    (constructOk convertOk : String → Bool) : List String → List Event × Bool
  | [] => ([], false)
  | p :: rest =>
    match processCube cfg fs constructOk convertOk p with
    | .ok evs =>
      let r := runDriver cfg fs constructOk convertOk rest
      (evs ++ r.1, r.2)
    | .error evs => (evs, true)

/-- Path discovery: `paths = sorted(glob(pattern))`.  The glob expansion
is the environment's; the driver sorts its matches. -/
def paths (globMatches : List String) : List String :=
  List.insertionSort (· ≤ ·) globMatches

/-- The events of an iteration, whether it finished or raised. -/
def eventsOf : Except (List Event) (List Event) → List Event
  | .ok evs => evs
  | .error evs => evs

/-- Whether an iteration finished without an exception. -/
def finishedOk : Except (List Event) (List Event) → Bool
  | .ok _ => true
  | .error _ => false

/-- Events other than console output and figure rendering: the external
construction, quality-map and conversion calls. -/
def isCore : Event → Bool
  | .constructed _ => true
  | .quality_map _ => true
  | .converted _ _ _ _ => true
  | _ => false

/-- The core (non-diagnostic) events of an iteration. -/
def coreEvents (e : Except (List Event) (List Event)) : List Event :=
  (eventsOf e).filter isCore

/-! ### Helper lemmas -/

theorem splitextChars_append (p : List Char) :
    (splitextChars p).1 ++ (splitextChars p).2 = p := by
  simp only [splitextChars]
  split
  · split
    · simp
    · simp
  · simp

theorem splitext_append (p : String) : (splitext p).1 ++ (splitext p).2 = p := by
  show String.mk ((splitextChars p.data).1 ++ (splitextChars p.data).2) = p
  rw [splitextChars_append]

theorem intercalate_pair (a b : String) :
    String.intercalate "." [a, b] = a ++ "." ++ b := by
  cases a; cases b
  simp [String.intercalate, String.intercalate.go, String.append]

theorem data_append (a b : String) : (a ++ b).data = a.data ++ b.data := rfl

/-! ### The claims -/

/-- C1: for every cube path `p` and fixed `FORMAT`, `QUANTIZE`, the
converted path equals the cube path with its extension removed, followed
by `.`, a `q` marker exactly when `QUANTIZE` is true, and the format
name; and the computation is deterministic — identical inputs give the
identical target path. -/
theorem converted_path_pure (p FORMAT : String) (QUANTIZE : Bool) :
    path_converted p QUANTIZE FORMAT =
      (splitext p).1 ++ "." ++ (if QUANTIZE then "q" else "") ++ FORMAT ∧
    (splitext p).1 ++ (splitext p).2 = p ∧
    path_converted p QUANTIZE FORMAT = path_converted p QUANTIZE FORMAT := by
  refine ⟨?_, splitext_append p, rfl⟩
  rw [path_converted, intercalate_pair]
  simp [String.append_assoc]

/-- C2: when `DRY_RUN` is true, an iteration finishes without error and
performs no geometry construction, no quality-map access and no
conversion (hence no filesystem write), whatever the existence checks
and the `RECREATE` flag say. -/
theorem dry_run_no_effects (cfg : Config) (fs constructOk convertOk : String → Bool)
    (p : String) (hdry : cfg.DRY_RUN = true) :
    finishedOk (processCube cfg fs constructOk convertOk p) = true ∧
    coreEvents (processCube cfg fs constructOk convertOk p) = [] := by
  simp only [processCube, hdry]
  split
  · exact ⟨rfl, rfl⟩
  · split
    · exact ⟨rfl, rfl⟩
    · exact ⟨rfl, rfl⟩

theorem dry_run_no_effects_witness :
    finishedOk (processCube ⟨true, "blosc", true, true, true⟩ (fun _ => true)
      (fun _ => false) (fun _ => false) "/d/a.sgy") = true ∧
    coreEvents (processCube ⟨true, "blosc", true, true, true⟩ (fun _ => true)
      (fun _ => false) (fun _ => false) "/d/a.sgy") = [] :=
  dry_run_no_effects ⟨true, "blosc", true, true, true⟩ (fun _ => true)
    (fun _ => false) (fun _ => false) "/d/a.sgy" rfl

/-- C3: when the converted path already exists and `RECREATE` is false,
the iteration prints exactly the skip notice and nothing else: no
construction, no conversion, and the existing artifact is untouched. -/
theorem recreate_gate_skips (cfg : Config) (fs constructOk convertOk : String → Bool)
    (p : String) (hsrc : fs p = true)
    (hdst : fs (path_converted p cfg.QUANTIZE cfg.FORMAT) = true)
    (hrec : cfg.RECREATE = false) :
    processCube cfg fs constructOk convertOk p =
      .ok [.printed (skipMsg (path_converted p cfg.QUANTIZE cfg.FORMAT))] := by
  simp [processCube, hsrc, hdst, hrec]

theorem recreate_gate_skips_witness :
    processCube ⟨false, "blosc", true, true, false⟩
      (fun s => s == "/d/a.sgy" || s == "/d/a.qblosc")
      (fun _ => true) (fun _ => true) "/d/a.sgy" =
      .ok [.printed (skipMsg (path_converted "/d/a.sgy" true "blosc"))] :=
  recreate_gate_skips ⟨false, "blosc", true, true, false⟩
    (fun s => s == "/d/a.sgy" || s == "/d/a.qblosc")
    (fun _ => true) (fun _ => true) "/d/a.sgy" (by decide) (by decide) rfl

/-- C4: a cube path that does not exist on the filesystem is skipped
silently: the iteration produces no events at all and raises no error. -/
theorem missing_source_skips (cfg : Config) (fs constructOk convertOk : String → Bool)
    (p : String) (hsrc : fs p = false) :
    processCube cfg fs constructOk convertOk p = .ok [] := by
  simp [processCube, hsrc]

theorem missing_source_skips_witness :
    processCube ⟨true, "hdf5", false, true, false⟩ (fun _ => false)
      (fun _ => true) (fun _ => true) "/d/gone.sgy" = .ok [] :=
  missing_source_skips ⟨true, "hdf5", false, true, false⟩ (fun _ => false)
    (fun _ => true) (fun _ => true) "/d/gone.sgy" rfl

theorem processCube_dry (cfg : Config) (fs constructOk convertOk : String → Bool)
    (p : String) (hsrc : fs p = true)
    (hg : fs (path_converted p cfg.QUANTIZE cfg.FORMAT) = false ∨ cfg.RECREATE = true)
    (hdry : cfg.DRY_RUN = true) :
    processCube cfg fs constructOk convertOk p =
      .ok [.printed (dryRunMsg p (path_converted p cfg.QUANTIZE cfg.FORMAT))] := by
  rcases hg with h1 | h1 <;> simp [processCube, hsrc, h1, hdry]

/-- C5: geometry construction happens only after all three policy checks
pass: whenever an iteration's trace contains the construction call, the
source existed, the recreate gate let it through (no pre-existing
converted file, or `RECREATE` set), and dry-run was off — so a skipped
cube never pays the construction cost. -/
theorem gates_before_construction (cfg : Config)
    (fs constructOk convertOk : String → Bool) (p : String)
    (h : Event.constructed p ∈ eventsOf (processCube cfg fs constructOk convertOk p)) :
    fs p = true ∧
    (fs (path_converted p cfg.QUANTIZE cfg.FORMAT) = false ∨ cfg.RECREATE = true) ∧
    cfg.DRY_RUN = false := by
  rcases Bool.eq_false_or_eq_true (fs p) with hsrc | hsrc
  · refine ⟨hsrc, ?_⟩
    rcases Bool.eq_false_or_eq_true (fs (path_converted p cfg.QUANTIZE cfg.FORMAT))
        with hpc | hpc
    · rcases Bool.eq_false_or_eq_true cfg.RECREATE with hrec | hrec
      · refine ⟨Or.inr hrec, ?_⟩
        rcases Bool.eq_false_or_eq_true cfg.DRY_RUN with hdry | hdry
        · rw [processCube_dry cfg fs constructOk convertOk p hsrc (Or.inr hrec) hdry] at h
          simp [eventsOf] at h
        · exact hdry
      · rw [recreate_gate_skips cfg fs constructOk convertOk p hsrc hpc hrec] at h
        simp [eventsOf] at h
    · refine ⟨Or.inl hpc, ?_⟩
      rcases Bool.eq_false_or_eq_true cfg.DRY_RUN with hdry | hdry
      · rw [processCube_dry cfg fs constructOk convertOk p hsrc (Or.inl hpc) hdry] at h
        simp [eventsOf] at h
      · exact hdry
  · rw [missing_source_skips cfg fs constructOk convertOk p hsrc] at h
    simp [eventsOf] at h

theorem gates_before_construction_witness :
    (Event.constructed "/d/a.sgy" ∈ eventsOf (processCube ⟨true, "blosc", true, false, false⟩
      (fun _ => true) (fun _ => true) (fun _ => true) "/d/a.sgy")) ∧
    ((fun _ => true : String → Bool) "/d/a.sgy" = true ∧
     ((fun _ => true : String → Bool)
        (path_converted "/d/a.sgy" (Config.QUANTIZE ⟨true, "blosc", true, false, false⟩)
          (Config.FORMAT ⟨true, "blosc", true, false, false⟩)) = false ∨
      Config.RECREATE ⟨true, "blosc", true, false, false⟩ = true) ∧
     Config.DRY_RUN ⟨true, "blosc", true, false, false⟩ = false) :=
  ⟨by decide,
   gates_before_construction ⟨true, "blosc", true, false, false⟩
     (fun _ => true) (fun _ => true) (fun _ => true) "/d/a.sgy" (by decide)⟩

/-- C6: the `SHOW` flag is side-effect-only: with every other input held
fixed, flipping `SHOW` changes neither the external construction,
quality-map and conversion calls (with their arguments) nor whether the
iteration finishes without error. -/
theorem show_flag_frame (RECREATE QUANTIZE DRY_RUN : Bool) (FORMAT : String)
    (fs constructOk convertOk : String → Bool) (p : String) :
    coreEvents (processCube ⟨RECREATE, FORMAT, QUANTIZE, true, DRY_RUN⟩
        fs constructOk convertOk p) =
      coreEvents (processCube ⟨RECREATE, FORMAT, QUANTIZE, false, DRY_RUN⟩
        fs constructOk convertOk p) ∧
    finishedOk (processCube ⟨RECREATE, FORMAT, QUANTIZE, true, DRY_RUN⟩
        fs constructOk convertOk p) =
      finishedOk (processCube ⟨RECREATE, FORMAT, QUANTIZE, false, DRY_RUN⟩
        fs constructOk convertOk p) := by
  simp only [processCube]
  split
  · exact ⟨rfl, rfl⟩
  · split
    · exact ⟨rfl, rfl⟩
    · split
      · exact ⟨rfl, rfl⟩
      · split
        · exact ⟨rfl, rfl⟩
        · split
          · constructor
            · simp [coreEvents, eventsOf, isCore, List.filter_append]
            · rfl
          · constructor
            · simp [coreEvents, eventsOf, isCore, List.filter_append]
            · rfl

/-- C7: an exception inside construction or conversion is not caught by
the driver: the loop stops there, the remaining cubes are never
processed, and the trace ends exactly at the point of failure with no
cleanup appended. -/
theorem exception_aborts_run (cfg : Config) (fs constructOk convertOk : String → Bool)
    (p : String) (rest : List String) (evs : List Event)
    (h : processCube cfg fs constructOk convertOk p = .error evs) :
    runDriver cfg fs constructOk convertOk (p :: rest) = (evs, true) := by
  simp [runDriver, h]

theorem exception_aborts_run_witness :
    runDriver ⟨true, "blosc", true, false, false⟩ (fun _ => true)
      (fun _ => false) (fun _ => true) ["/d/a.sgy", "/d/b.sgy"] = ([], true) :=
  exception_aborts_run ⟨true, "blosc", true, false, false⟩ (fun _ => true)
    (fun _ => false) (fun _ => true) "/d/a.sgy" ["/d/b.sgy"] [] rfl

/-- C8: path discovery returns the glob matches in lexicographically
sorted order (a sorted permutation of the matches); when the pattern
matches nothing the result is empty, and the driver processes zero
cubes without raising. -/
theorem path_discovery_sorted (cfg : Config) (fs constructOk convertOk : String → Bool)
    (globMatches : List String) :
    List.Sorted (· ≤ ·) (paths globMatches) ∧
    List.Perm (paths globMatches) globMatches ∧
    paths ([] : List String) = [] ∧
    runDriver cfg fs constructOk convertOk (paths []) = ([], false) :=
  ⟨List.sorted_insertionSort _ _, List.perm_insertionSort _ _, rfl, rfl⟩

/-- C9: a cube that passes all three policy gates has its quality map
computed whether or not `SHOW` is set (the configuration, and in it the
`SHOW` flag, is arbitrary here): the quality-map access is not gated by
the diagnostics flag. -/
theorem quality_map_unconditional (cfg : Config)
    (fs constructOk convertOk : String → Bool) (p : String)
    (hsrc : fs p = true)
    (hg : fs (path_converted p cfg.QUANTIZE cfg.FORMAT) = false ∨ cfg.RECREATE = true)
    (hdry : cfg.DRY_RUN = false)
    (hcons : constructOk p = true) :
    Event.quality_map p ∈ eventsOf (processCube cfg fs constructOk convertOk p) := by
  rcases hg with h1 | h1 <;>
    rcases Bool.eq_false_or_eq_true (convertOk p) with h2 | h2 <;>
    rcases Bool.eq_false_or_eq_true cfg.SHOW with h3 | h3 <;>
    simp [processCube, eventsOf, hsrc, h1, hdry, hcons, h2, h3]

theorem quality_map_unconditional_witness :
    Event.quality_map "/d/a.sgy" ∈ eventsOf (processCube ⟨true, "hdf5", false, false, false⟩
      (fun _ => true) (fun _ => true) (fun _ => true) "/d/a.sgy") :=
  quality_map_unconditional ⟨true, "hdf5", false, false, false⟩
    (fun _ => true) (fun _ => true) (fun _ => true) "/d/a.sgy"
    rfl (Or.inr rfl) rfl rfl

/-- C10: when `DRY_RUN` is true but the converted path exists and
`RECREATE` is false, the recreate gate fires first: the iteration prints
exactly the already-exists skip notice, and the dry-run report is not
among its events. -/
theorem recreate_gate_precedes_dry_run (cfg : Config)
    (fs constructOk convertOk : String → Bool) (p : String)
    (hsrc : fs p = true)
    (hdst : fs (path_converted p cfg.QUANTIZE cfg.FORMAT) = true)
    (hrec : cfg.RECREATE = false)
    (hdry : cfg.DRY_RUN = true) :
    processCube cfg fs constructOk convertOk p =
      .ok [.printed (skipMsg (path_converted p cfg.QUANTIZE cfg.FORMAT))] ∧
    Event.printed (dryRunMsg p (path_converted p cfg.QUANTIZE cfg.FORMAT)) ∉
      eventsOf (processCube cfg fs constructOk convertOk p) := by
  have hskip := recreate_gate_skips cfg fs constructOk convertOk p hsrc hdst hrec
  refine ⟨hskip, ?_⟩
  rw [hskip]
  intro hmem
  have he : Event.printed (dryRunMsg p (path_converted p cfg.QUANTIZE cfg.FORMAT)) =
      Event.printed (skipMsg (path_converted p cfg.QUANTIZE cfg.FORMAT)) := by
    simpa [eventsOf] using hmem
  have hmsg : dryRunMsg p (path_converted p cfg.QUANTIZE cfg.FORMAT) =
      skipMsg (path_converted p cfg.QUANTIZE cfg.FORMAT) := by
    injection he
  have hlast := congrArg (fun s => s.data.getLast?) hmsg
  simp only [skipMsg, dryRunMsg, data_append] at hlast
  rw [List.getLast?_append_of_ne_nil _ (by decide),
      List.getLast?_append_of_ne_nil _ (by decide)] at hlast
  simp at hlast

theorem recreate_gate_precedes_dry_run_witness :
    processCube ⟨false, "blosc", true, false, true⟩
      (fun s => s == "/d/a.sgy" || s == "/d/a.qblosc")
      (fun _ => true) (fun _ => true) "/d/a.sgy" =
      .ok [.printed (skipMsg (path_converted "/d/a.sgy" true "blosc"))] ∧
    Event.printed (dryRunMsg "/d/a.sgy" (path_converted "/d/a.sgy" true "blosc")) ∉
      eventsOf (processCube ⟨false, "blosc", true, false, true⟩
        (fun s => s == "/d/a.sgy" || s == "/d/a.qblosc")
        (fun _ => true) (fun _ => true) "/d/a.sgy") :=
  recreate_gate_precedes_dry_run ⟨false, "blosc", true, false, true⟩
    (fun s => s == "/d/a.sgy" || s == "/d/a.qblosc")
    (fun _ => true) (fun _ => true) "/d/a.sgy" (by decide) (by decide) rfl rfl

end Seismiqb
